import Mathlib

/-!
Shallow embedding of the Gotham air-quality enrichment pipeline.

The repository contains two near-duplicate copies of the pipeline function
`fetch_air_quality_data`:

* `src/02_productivity_app/app.py` (embedded in namespace `App`), and
* `src/03_ollama/gotham_ai_report.py` (embedded in namespace `Report`).

Network effects are embedded as an explicit environment `Env` that supplies the
outcome of the discovery call and, per requested location id, the outcome of the
latest-reading call.  JSON numbers are embedded as `Rat` (exact decimals), JSON
optional fields as `Option`, and Python truthiness of numbers (`0.0` and `None`
are falsy) as `pyOr`.  Each pipeline run returns, besides its data-frame rows
and metadata, the list of network calls it issued and the list of error
messages it displayed, so that claims about call counts and surfaced errors
are statable.
-/

/-- A JSON `coordinates` object: `{latitude, longitude}`, each component
possibly absent (or null, which `dict.get` makes indistinguishable from
absent). -/
structure CoordsDict where
  latitude : Option Rat
  longitude : Option Rat
deriving DecidableEq

/-- A JSON `datetime` object of a measurement: `{local, utc}`.  Only the
`local` component is read by the pipeline. -/
structure DT where
  localTime : Option String
  utc : Option String
deriving DecidableEq

/-- A location record from the `results` array of the discovery response.
`id`, `name` and `coordinates` are read with `dict.get`, so each may be
absent.  For `coordinates`, `none` stands for an absent, null or empty
(`{}`, falsy) object and `some d` for a present non-empty (truthy) object. -/
structure Loc where
  id : Option Int
  name : Option String
  coordinates : Option CoordsDict
deriving DecidableEq

/-- A measurement record from the `results` array of a latest-reading response. -/
structure Measurement where
  value : Option Rat
  datetime : Option DT
  coordinates : Option CoordsDict
deriving DecidableEq

/-- Parsed JSON body of the discovery response: the `results` array (absent
key read as `[]`) and the `meta` object, kept opaque as an optional string
(`none` stands for an absent `meta` key, whose `dict.get` default is `{}`). -/
structure LocationsBody where
  results : List Loc
  meta : Option String
deriving DecidableEq

/-- Parsed JSON body of a latest-reading response: the `results` array
(absent key read as `[]`). -/
structure LatestBody where
  results : List Measurement
deriving DecidableEq

/-- Outcome of the discovery HTTP call:
2xx with a parsed JSON body, a non-2xx status raised by `raise_for_status`,
or any other exception (timeout, transport failure, JSON parse failure). -/
inductive DiscoveryOutcome where
  | success (body : LocationsBody)
  | httpError (status : Nat)
  | otherError
deriving DecidableEq

/-- Outcome of a latest-reading HTTP call as seen by the calling copy:
a parsed JSON body, or an exception raised inside the per-location `try`
block (timeout, transport failure, non-2xx where checked, parse failure). -/
inductive LatestOutcome where
  | success (body : LatestBody)
  | failure

/-- Query parameters of the discovery call.  `coordinates` is the
`(lat, lon)` pair, serialized on the wire as the string `"lat,lon"`;
`radius` is in meters. -/
structure DiscoveryParams where
  coordinates : Rat × Rat
  radius : Int
  parameters_id : Int
  limit : Nat
  page : Nat
deriving DecidableEq

/-- Query parameters of a latest-reading call.  `app.py` sends
`limit=1, page=1`; `gotham_ai_report.py` sends only `limit=1`. -/
structure LatestParams where
  limit : Nat
  page : Option Nat
deriving DecidableEq

/-- A network call issued by a pipeline run: the one discovery call, or a
per-location latest-reading (enrichment) call to
`/v3/locations/{id}/latest`. -/
inductive Call where
  | discovery (params : DiscoveryParams)
  | latest (locId : Option Int) (params : LatestParams)
deriving DecidableEq

/-- Whether a call is a latest-reading (enrichment) call. -/
def Call.isLatest : Call → Bool
  | .latest _ _ => true
  | .discovery _ => false

/-- Whether a call is the discovery call. -/
def Call.isDiscovery : Call → Bool
  | .discovery _ => true
  | .latest _ _ => false

/-- An error message displayed via `st.error`, kept structured. -/
inductive AppError where
  | invalidPollutant (key : String)
  | missingKey
  | discoveryFailed (status : Option Nat)
deriving DecidableEq

/-- The environment a pipeline run executes in: the credential (as read from
`OPENAQ_API_KEY`; `none` for unset) and the responses of the network: one
discovery outcome and, for each requested location id, a latest outcome. -/
structure Env where
  apiKey : Option String
  discovery : DiscoveryOutcome
  latest : Option Int → LatestOutcome

/-- One row of the result table (`records` entry / data-frame row). -/
structure Record where
  location : String
  value : Option Rat
  unit : String
  time : Option String
  latitude : Option Rat
  longitude : Option Rat
deriving DecidableEq

/-- Result of one pipeline run: the final data-frame rows, the returned
metadata, plus the log of network calls issued and errors displayed. -/
structure FetchResult where
  df : List Record
  meta : Option String
  calls : List Call
  errors : List AppError
deriving DecidableEq

/-- Python `a or b` on optional numbers: `None` and `0.0` are falsy, so the
left operand is kept only when present and nonzero. -/
def pyOr (a b : Option Rat) : Option Rat :=
  match a with
  | some x => if x = 0 then b else some x
  | none => b

/-- How a Python f-string renders `location_id` (an optional integer). -/
def idStr : Option Int → String
  | some i => toString i
  | none => "None"

/-- Per-pollutant configuration entry (`get_pollutant_config` values,
restricted to the fields the pipeline reads). -/
structure PollutantInfo where
  parameter_id : Int
  unit : String
deriving DecidableEq

/-- `get_pollutant_config()`: the configured pollutant table.
Parameter ids: PM2.5 = 2, O3 = 7. -/
def get_pollutant_config : List (String × PollutantInfo) :=
  [("PM2.5 (Fine particulate matter)", { parameter_id := 2, unit := "µg/m³" }),
   ("O₃ (Ozone)", { parameter_id := 7, unit := "µg/m³" })]

namespace App

/-- Body of the per-location loop of `fetch_air_quality_data` in
`src/02_productivity_app/app.py` (lines 206–240): issue the latest-reading
call; on exception skip; on success with a non-empty `results` build a
record, resolving each coordinate component as
`measurement_coords.get(c) or coords.get(c)` where `measurement_coords`
is `measurement.get("coordinates") or coords`. -/
def processLoc (unit : String) (env : Env) (loc : Loc) : Option Record :=
  let coords := loc.coordinates.getD ⟨none, none⟩
  match env.latest loc.id with
  | .failure => none
  | .success body =>
    match body.results with
    | [] => none
    | m :: _ =>
      let mcoords :=
        match m.coordinates with
        | some d => d
        | none => coords
      some
        { location := loc.name.getD ("Location " ++ idStr loc.id)
          value := m.value
          unit := unit
          time := (m.datetime.getD ⟨none, none⟩).localTime
          latitude := pyOr mcoords.latitude coords.latitude
          longitude := pyOr mcoords.longitude coords.longitude }

/-- `fetch_air_quality_data` of `src/02_productivity_app/app.py`
(lines 152–246): reject unknown pollutant keys; reject an absent/empty
API key before any network call; issue the discovery call; on discovery
failure display an error (with the HTTP status when `raise_for_status`
raised) and return empty; on zero candidates return empty (note: with `{}`
metadata); otherwise enrich the first `min(50, N)` candidates, drop rows
with a null latitude or longitude, and return the rows together with the
the `meta` of the body. -/
def fetch_air_quality_data (env : Env) (lat lon : Rat) (radius_km : Int)
    (pollutant_key : String) : FetchResult :=
  match get_pollutant_config.lookup pollutant_key with
  | none => { df := [], meta := none, calls := [], errors := [.invalidPollutant pollutant_key] }
  | some cfg =>
    if env.apiKey.getD "" = "" then
      { df := [], meta := none, calls := [], errors := [.missingKey] }
    else
      let dparams : DiscoveryParams :=
        { coordinates := (lat, lon), radius := radius_km * 1000,
          parameters_id := cfg.parameter_id, limit := 100, page := 1 }
      match env.discovery with
      | .httpError s =>
        { df := [], meta := none, calls := [.discovery dparams],
          errors := [.discoveryFailed (some s)] }
      | .otherError =>
        { df := [], meta := none, calls := [.discovery dparams],
          errors := [.discoveryFailed none] }
      | .success body =>
        let locations := body.results
        if locations.isEmpty then
          { df := [], meta := none, calls := [.discovery dparams], errors := [] }
        else
          let max_locations := min 50 locations.length
          let truncated := locations.take max_locations
          let latestCalls :=
            truncated.map (fun loc => Call.latest loc.id { limit := 1, page := some 1 })
          let records := truncated.filterMap (processLoc cfg.unit env)
          let df := records.filter (fun r => r.latitude.isSome && r.longitude.isSome)
          { df := df, meta := body.meta, calls := .discovery dparams :: latestCalls,
            errors := [] }

end App

namespace Report

/-- Body of the per-location loop of `fetch_air_quality_data` in
`src/03_ollama/gotham_ai_report.py` (lines 163–178): issue the
latest-reading call (no `raise_for_status`); on exception skip; on a parsed
body with non-empty `results` build a record whose latitude and longitude
come from the `coordinates` of the candidate only — the own
coordinates are never read. -/
def processLoc (unit : String) (env : Env) (loc : Loc) : Option Record :=
  let coords := loc.coordinates.getD ⟨none, none⟩
  match env.latest loc.id with
  | .failure => none
  | .success body =>
    match body.results with
    | [] => none
    | m :: _ =>
      some
        { location := loc.name.getD ("Loc " ++ idStr loc.id)
          value := m.value
          unit := unit
          time := (m.datetime.getD ⟨none, none⟩).localTime
          latitude := coords.latitude
          longitude := coords.longitude }

/-- `fetch_air_quality_data` of `src/03_ollama/gotham_ai_report.py`
(lines 141–181): return empty (silently) on unknown pollutant keys; send
the API key as a header only when present but proceed either way; issue the
discovery call; on any discovery failure silently return empty; enrich the
first 50 candidates (`locations[:50]`, `limit=1`, no `page`), drop rows
with a null latitude or longitude, and always return `{}` as metadata. -/
def fetch_air_quality_data (env : Env) (lat lon : Rat) (radius_km : Int)
    (pollutant_key : String) : FetchResult :=
  match get_pollutant_config.lookup pollutant_key with
  | none => { df := [], meta := none, calls := [], errors := [] }
  | some cfg =>
    let dparams : DiscoveryParams :=
      { coordinates := (lat, lon), radius := radius_km * 1000,
        parameters_id := cfg.parameter_id, limit := 100, page := 1 }
    match env.discovery with
    | .httpError _ =>
      { df := [], meta := none, calls := [.discovery dparams], errors := [] }
    | .otherError =>
      { df := [], meta := none, calls := [.discovery dparams], errors := [] }
    | .success body =>
      let truncated := body.results.take 50
      let latestCalls :=
        truncated.map (fun loc => Call.latest loc.id { limit := 1, page := none })
      let records := truncated.filterMap (processLoc cfg.unit env)
      let df := records.filter (fun r => r.latitude.isSome && r.longitude.isSome)
      { df := df, meta := none, calls := .discovery dparams :: latestCalls,
        errors := [] }

end Report

/-- Number of latest-reading (enrichment) calls a run issued. -/
def latestCallCount (res : FetchResult) : Nat :=
  (res.calls.filter Call.isLatest).length

/-- Whether (and with which optional status) the discovery outcome is a
failure: `some (some s)` for a raised non-2xx status `s`, `some none` for
any other exception, `none` for success. -/
def discStatus : DiscoveryOutcome → Option (Option Nat)
  | .success _ => none
  | .httpError s => some (some s)
  | .otherError => some none

/-- Filtering a list of latest calls for latest calls keeps all of them. -/
theorem filter_isLatest_map (l : List Loc) (p : LatestParams) :
    (l.map (fun loc => Call.latest loc.id p)).filter Call.isLatest
      = l.map (fun loc => Call.latest loc.id p) := by
  induction l with
  | nil => rfl
  | cons a t ih => simp [List.filter, Call.isLatest, ih]

/-- Filtering a list of latest calls for discovery calls yields nothing. -/
theorem filter_isDiscovery_map (l : List Loc) (p : LatestParams) :
    (l.map (fun loc => Call.latest loc.id p)).filter Call.isDiscovery = [] := by
  induction l with
  | nil => rfl
  | cons a t ih => simp [List.filter, Call.isDiscovery, ih]

/-- Filtering a truncated list of latest calls for latest calls keeps all. -/
theorem filter_isLatest_take_map (n : Nat) (l : List Loc) (p : LatestParams) :
    ((l.map (fun loc => Call.latest loc.id p)).take n).filter Call.isLatest
      = (l.map (fun loc => Call.latest loc.id p)).take n := by
  rw [← List.map_take]
  exact filter_isLatest_map (l.take n) p

/-- Filtering a truncated list of latest calls for discovery calls yields
nothing. -/
theorem filter_isDiscovery_take_map (n : Nat) (l : List Loc) (p : LatestParams) :
    ((l.map (fun loc => Call.latest loc.id p)).take n).filter Call.isDiscovery = [] := by
  rw [← List.map_take]
  exact filter_isDiscovery_map (l.take n) p

/-- A sample measurement carrying its own coordinates (3, 4). -/
def mGood : Measurement :=
  { value := some 12, datetime := some ⟨some "t0", none⟩,
    coordinates := some ⟨some 3, some 4⟩ }

/-- A sample discovery candidate with coordinates (1, 2). -/
def locA : Loc := { id := some 1, name := some "A", coordinates := some ⟨some 1, some 2⟩ }

/-- A sample environment: credential present, discovery succeeds with one
candidate and some metadata, enrichment succeeds with `mGood`. -/
def envT : Env :=
  { apiKey := some "k",
    discovery := .success { results := [locA], meta := some "M" },
    latest := fun _ => .success { results := [mGood] } }

/-- Claim C9: calling either pipeline copy with a pollutant key that is not in
the configured pollutant table returns an empty result (empty table, empty
metadata) without issuing any network call (`app.py` additionally displays an
invalid-key error; `gotham_ai_report.py` is silent). -/
theorem c9_unknown_pollutant_key (env : Env) (lat lon : Rat) (radius_km : Int)
    (pk : String) (h : get_pollutant_config.lookup pk = none) :
    App.fetch_air_quality_data env lat lon radius_km pk
      = { df := [], meta := none, calls := [], errors := [.invalidPollutant pk] }
    ∧ Report.fetch_air_quality_data env lat lon radius_km pk
      = { df := [], meta := none, calls := [], errors := [] } := by
  constructor <;>
    simp [App.fetch_air_quality_data, Report.fetch_air_quality_data, h]

/-- Claim C9 witness: the key "Radon" is not configured, and both copies
return the empty result with no calls. -/
theorem c9_unknown_pollutant_key_witness :
    get_pollutant_config.lookup "Radon" = none
    ∧ (App.fetch_air_quality_data envT 0 0 1 "Radon"
        = { df := [], meta := none, calls := [], errors := [.invalidPollutant "Radon"] }
      ∧ Report.fetch_air_quality_data envT 0 0 1 "Radon"
        = { df := [], meta := none, calls := [], errors := [] }) :=
  ⟨rfl, c9_unknown_pollutant_key envT 0 0 1 "Radon" rfl⟩

/-- Claim C8: for every valid request (known pollutant key, credential
present), each copy issues exactly one discovery call to the locations
endpoint, with the coordinates as the (lat, lon) pair (serialized on the wire
as "lat,lon"), the radius converted to meters as radius_km * 1000, the
parameter-id filter of the pollutant, limit 100 and page 1. -/
theorem c8_discovery_call_shape (env : Env) (lat lon : Rat) (radius_km : Int)
    (pk : String) (cfg : PollutantInfo)
    (hcfg : get_pollutant_config.lookup pk = some cfg)
    (hkey : env.apiKey.getD "" ≠ "") :
    (App.fetch_air_quality_data env lat lon radius_km pk).calls.filter Call.isDiscovery
      = [Call.discovery { coordinates := (lat, lon), radius := radius_km * 1000, parameters_id := cfg.parameter_id, limit := 100, page := 1 }]
    ∧ (Report.fetch_air_quality_data env lat lon radius_km pk).calls.filter Call.isDiscovery
      = [Call.discovery { coordinates := (lat, lon), radius := radius_km * 1000, parameters_id := cfg.parameter_id, limit := 100, page := 1 }] := by
  cases hd : env.discovery with
  | success body =>
    by_cases hb : body.results = [] <;>
      constructor <;>
        simp [App.fetch_air_quality_data, Report.fetch_air_quality_data, hcfg, hkey, hd, hb,
          List.filter, Call.isDiscovery, filter_isDiscovery_map, filter_isDiscovery_take_map]
  | httpError s =>
    constructor <;>
      simp [App.fetch_air_quality_data, Report.fetch_air_quality_data, hcfg, hkey, hd,
        List.filter, Call.isDiscovery]
  | otherError =>
    constructor <;>
      simp [App.fetch_air_quality_data, Report.fetch_air_quality_data, hcfg, hkey, hd,
        List.filter, Call.isDiscovery]

/-- Claim C8 witness: on a concrete request the discovery call of both copies
carries coordinates (40.7128, -74.006), radius 10000 m, parameter id 2,
limit 100, page 1. -/
theorem c8_discovery_call_shape_witness :
    get_pollutant_config.lookup "PM2.5 (Fine particulate matter)"
        = some { parameter_id := 2, unit := "µg/m³" }
    ∧ envT.apiKey.getD "" ≠ ""
    ∧ ((App.fetch_air_quality_data envT (407128/10000) (-74006/1000) 10
          "PM2.5 (Fine particulate matter)").calls.filter Call.isDiscovery
        = [Call.discovery { coordinates := (407128/10000, -74006/1000), radius := 10 * 1000, parameters_id := 2, limit := 100, page := 1 }]
      ∧ (Report.fetch_air_quality_data envT (407128/10000) (-74006/1000) 10
          "PM2.5 (Fine particulate matter)").calls.filter Call.isDiscovery
        = [Call.discovery { coordinates := (407128/10000, -74006/1000), radius := 10 * 1000, parameters_id := 2, limit := 100, page := 1 }]) :=
  ⟨rfl, by simp [envT],
    c8_discovery_call_shape envT (407128/10000) (-74006/1000) 10
      "PM2.5 (Fine particulate matter)" { parameter_id := 2, unit := "µg/m³" }
      rfl (by simp [envT])⟩

/-- Truncating to `min(50, len)` elements is truncating to 50. -/
theorem take_min50 {α : Type} (l : List α) : l.take (min 50 l.length) = l.take 50 := by
  rw [← List.take_take, List.take_length]

/-- Claim C5: for every discovery result of N candidates, each copy issues at
most min(N, 50) enrichment calls — in fact exactly one per candidate of the
first min(N, 50) candidates, in discovery order, with no re-sorting or
prioritization (app.py sends limit=1, page=1; the report copy limit=1 only). -/
theorem c5_enrichment_call_cap (env : Env) (lat lon : Rat) (radius_km : Int)
    (pk : String) (cfg : PollutantInfo) (body : LocationsBody)
    (hcfg : get_pollutant_config.lookup pk = some cfg)
    (hkey : env.apiKey.getD "" ≠ "")
    (hd : env.discovery = .success body) :
    latestCallCount (App.fetch_air_quality_data env lat lon radius_km pk)
        ≤ min body.results.length 50
    ∧ (App.fetch_air_quality_data env lat lon radius_km pk).calls.filter Call.isLatest
        = (body.results.take 50).map (fun loc => Call.latest loc.id { limit := 1, page := some 1 })
    ∧ latestCallCount (Report.fetch_air_quality_data env lat lon radius_km pk)
        ≤ min body.results.length 50
    ∧ (Report.fetch_air_quality_data env lat lon radius_km pk).calls.filter Call.isLatest
        = (body.results.take 50).map (fun loc => Call.latest loc.id { limit := 1, page := none }) := by
  by_cases hb : body.results = []
  · refine ⟨?_, ?_, ?_, ?_⟩ <;>
      simp [App.fetch_air_quality_data, Report.fetch_air_quality_data, latestCallCount,
        hcfg, hkey, hd, hb, List.filter, Call.isLatest]
  · refine ⟨?_, ?_, ?_, ?_⟩ <;>
      simp [App.fetch_air_quality_data, Report.fetch_air_quality_data, latestCallCount,
        hcfg, hkey, hd, hb, List.filter, Call.isLatest, take_min50,
        filter_isLatest_take_map, filter_isDiscovery_take_map]

/-- Claim C5 witness: with one discovered candidate, both copies issue at most
min(1, 50) enrichment calls. -/
theorem c5_enrichment_call_cap_witness :
    get_pollutant_config.lookup "PM2.5 (Fine particulate matter)"
        = some { parameter_id := 2, unit := "µg/m³" }
    ∧ envT.apiKey.getD "" ≠ ""
    ∧ envT.discovery = .success { results := [locA], meta := some "M" }
    ∧ latestCallCount (App.fetch_air_quality_data envT 0 0 1 "PM2.5 (Fine particulate matter)")
        ≤ min 1 50
    ∧ latestCallCount (Report.fetch_air_quality_data envT 0 0 1 "PM2.5 (Fine particulate matter)")
        ≤ min 1 50 :=
  ⟨rfl, by simp [envT], rfl,
    (c5_enrichment_call_cap envT 0 0 1 "PM2.5 (Fine particulate matter)"
      { parameter_id := 2, unit := "µg/m³" } { results := [locA], meta := some "M" }
      rfl (by simp [envT]) rfl).1,
    (c5_enrichment_call_cap envT 0 0 1 "PM2.5 (Fine particulate matter)"
      { parameter_id := 2, unit := "µg/m³" } { results := [locA], meta := some "M" }
      rfl (by simp [envT]) rfl).2.2.1⟩

/-- An environment whose discovery call succeeds with zero candidates but a
non-empty `meta` object. -/
def envC4 : Env :=
  { apiKey := some "k",
    discovery := .success { results := [], meta := some "M" },
    latest := fun _ => .failure }

/-- Claim C4 counterexample: discovery succeeds with zero candidates and a
`meta` object "M", yet `app.py` returns `{}` (embedded `none`) as metadata —
the zero-candidate early return drops the meta pass-through, so the claimed
"preserves the meta object of the discovery response" is false. -/
theorem c4_meta_dropped_counterexample :
    envC4.discovery = .success { results := [], meta := some "M" }
    ∧ (App.fetch_air_quality_data envC4 0 0 1 "PM2.5 (Fine particulate matter)").meta = none
    ∧ (none : Option String) ≠ some "M" :=
  ⟨rfl, rfl, by decide⟩

/-- Claim C4 (amended): when discovery succeeds with zero candidates, both
copies issue zero enrichment calls and return an empty ResultSet, but with
empty metadata — the discovery `meta` object is not preserved on this path. -/
theorem c4_empty_discovery_empty_result (env : Env) (lat lon : Rat) (radius_km : Int)
    (pk : String) (cfg : PollutantInfo) (body : LocationsBody)
    (hcfg : get_pollutant_config.lookup pk = some cfg)
    (hkey : env.apiKey.getD "" ≠ "")
    (hd : env.discovery = .success body)
    (hb : body.results = []) :
    (App.fetch_air_quality_data env lat lon radius_km pk).df = []
    ∧ (App.fetch_air_quality_data env lat lon radius_km pk).meta = none
    ∧ latestCallCount (App.fetch_air_quality_data env lat lon radius_km pk) = 0
    ∧ (Report.fetch_air_quality_data env lat lon radius_km pk).df = []
    ∧ (Report.fetch_air_quality_data env lat lon radius_km pk).meta = none
    ∧ latestCallCount (Report.fetch_air_quality_data env lat lon radius_km pk) = 0 := by
  refine ⟨?_, ?_, ?_, ?_, ?_, ?_⟩ <;>
    simp [App.fetch_air_quality_data, Report.fetch_air_quality_data, latestCallCount,
      hcfg, hkey, hd, hb, List.filter, Call.isLatest]

/-- Claim C4 witness: on `envC4` (zero candidates, meta "M"), both copies
return an empty table, empty metadata and zero enrichment calls. -/
theorem c4_empty_discovery_empty_result_witness :
    get_pollutant_config.lookup "PM2.5 (Fine particulate matter)"
        = some { parameter_id := 2, unit := "µg/m³" }
    ∧ envC4.apiKey.getD "" ≠ ""
    ∧ envC4.discovery = .success { results := [], meta := some "M" }
    ∧ ((App.fetch_air_quality_data envC4 0 0 1 "PM2.5 (Fine particulate matter)").df = []
      ∧ (App.fetch_air_quality_data envC4 0 0 1 "PM2.5 (Fine particulate matter)").meta = none
      ∧ latestCallCount (App.fetch_air_quality_data envC4 0 0 1 "PM2.5 (Fine particulate matter)") = 0
      ∧ (Report.fetch_air_quality_data envC4 0 0 1 "PM2.5 (Fine particulate matter)").df = []
      ∧ (Report.fetch_air_quality_data envC4 0 0 1 "PM2.5 (Fine particulate matter)").meta = none
      ∧ latestCallCount (Report.fetch_air_quality_data envC4 0 0 1 "PM2.5 (Fine particulate matter)") = 0) :=
  ⟨rfl, by simp [envC4], rfl,
    c4_empty_discovery_empty_result envC4 0 0 1 "PM2.5 (Fine particulate matter)"
      { parameter_id := 2, unit := "µg/m³" } { results := [], meta := some "M" }
      rfl (by simp [envC4]) rfl rfl⟩

/-- An environment whose discovery call fails with HTTP 422. -/
def env422 : Env :=
  { apiKey := some "k", discovery := .httpError 422, latest := fun _ => .failure }

/-- Claim C2 counterexample: on a discovery failure with HTTP 422,
`gotham_ai_report.py` surfaces no error at all — its bare
`except Exception: return` swallows the failure, so no `DiscoveryFailed`
carrying the status is surfaced. -/
theorem c2_report_swallows_failure_counterexample :
    env422.discovery = .httpError 422
    ∧ (Report.fetch_air_quality_data env422 0 0 1 "PM2.5 (Fine particulate matter)").errors = []
    ∧ AppError.discoveryFailed (some 422)
        ∉ (Report.fetch_air_quality_data env422 0 0 1 "PM2.5 (Fine particulate matter)").errors :=
  ⟨rfl, rfl, by decide⟩

/-- Claim C2 (amended): on a discovery failure (transport-level or non-2xx),
`app.py` immediately surfaces a visible error carrying the HTTP status when
available (`none` for non-HTTP exceptions), returns an empty result, and
issues zero enrichment calls; `gotham_ai_report.py` silently returns an empty
result, also with zero enrichment calls. -/
theorem c2_discovery_failure_failfast (env : Env) (lat lon : Rat) (radius_km : Int)
    (pk : String) (cfg : PollutantInfo) (st : Option Nat)
    (hcfg : get_pollutant_config.lookup pk = some cfg)
    (hkey : env.apiKey.getD "" ≠ "")
    (hfail : discStatus env.discovery = some st) :
    (App.fetch_air_quality_data env lat lon radius_km pk).errors = [.discoveryFailed st]
    ∧ latestCallCount (App.fetch_air_quality_data env lat lon radius_km pk) = 0
    ∧ (App.fetch_air_quality_data env lat lon radius_km pk).df = []
    ∧ (Report.fetch_air_quality_data env lat lon radius_km pk).errors = []
    ∧ latestCallCount (Report.fetch_air_quality_data env lat lon radius_km pk) = 0
    ∧ (Report.fetch_air_quality_data env lat lon radius_km pk).df = [] := by
  cases hd : env.discovery with
  | success body => rw [hd] at hfail; simp [discStatus] at hfail
  | httpError s =>
    rw [hd] at hfail
    simp only [discStatus, Option.some.injEq] at hfail
    subst hfail
    refine ⟨?_, ?_, ?_, ?_, ?_, ?_⟩ <;>
      simp [App.fetch_air_quality_data, Report.fetch_air_quality_data, latestCallCount,
        hcfg, hkey, hd, List.filter, Call.isLatest]
  | otherError =>
    rw [hd] at hfail
    simp only [discStatus, Option.some.injEq] at hfail
    subst hfail
    refine ⟨?_, ?_, ?_, ?_, ?_, ?_⟩ <;>
      simp [App.fetch_air_quality_data, Report.fetch_air_quality_data, latestCallCount,
        hcfg, hkey, hd, List.filter, Call.isLatest]

/-- Claim C2 witness: with discovery failing at HTTP 422, `app.py` surfaces
`DiscoveryFailed 422` with zero enrichment calls; the report copy stays
silent with zero enrichment calls. -/
theorem c2_discovery_failure_failfast_witness :
    get_pollutant_config.lookup "PM2.5 (Fine particulate matter)"
        = some { parameter_id := 2, unit := "µg/m³" }
    ∧ env422.apiKey.getD "" ≠ ""
    ∧ discStatus env422.discovery = some (some 422)
    ∧ ((App.fetch_air_quality_data env422 0 0 1 "PM2.5 (Fine particulate matter)").errors
        = [.discoveryFailed (some 422)]
      ∧ latestCallCount (App.fetch_air_quality_data env422 0 0 1 "PM2.5 (Fine particulate matter)") = 0
      ∧ (App.fetch_air_quality_data env422 0 0 1 "PM2.5 (Fine particulate matter)").df = []
      ∧ (Report.fetch_air_quality_data env422 0 0 1 "PM2.5 (Fine particulate matter)").errors = []
      ∧ latestCallCount (Report.fetch_air_quality_data env422 0 0 1 "PM2.5 (Fine particulate matter)") = 0
      ∧ (Report.fetch_air_quality_data env422 0 0 1 "PM2.5 (Fine particulate matter)").df = []) :=
  ⟨rfl, by simp [env422], rfl,
    c2_discovery_failure_failfast env422 0 0 1 "PM2.5 (Fine particulate matter)"
      { parameter_id := 2, unit := "µg/m³" } (some 422) rfl (by simp [env422]) rfl⟩

/-- An environment with no API credential, whose network would answer the
discovery call with one candidate and the enrichment call with `mGood`. -/
def envNoKey : Env :=
  { apiKey := none,
    discovery := .success { results := [locA], meta := none },
    latest := fun _ => .success { results := [mGood] } }

/-- Claim C3 counterexample: with the credential absent,
`gotham_ai_report.py` still issues two network calls (the discovery call and
one enrichment call) — it merely omits the `X-API-Key` header — so "issues no
network call at all" is false. -/
theorem c3_report_calls_without_credential_counterexample :
    envNoKey.apiKey = none
    ∧ (Report.fetch_air_quality_data envNoKey 0 0 1 "PM2.5 (Fine particulate matter)").calls.length = 2 :=
  ⟨rfl, rfl⟩

/-- Claim C3 (amended): when the API credential is absent (unset or empty),
`app.py` fails the precondition with a visible missing-credential error and
issues no network call at all; `gotham_ai_report.py` ignores the missing
credential and still issues its discovery call as usual. -/
theorem c3_missing_credential (env : Env) (lat lon : Rat) (radius_km : Int)
    (pk : String) (cfg : PollutantInfo)
    (hcfg : get_pollutant_config.lookup pk = some cfg)
    (hnokey : env.apiKey.getD "" = "") :
    App.fetch_air_quality_data env lat lon radius_km pk
      = { df := [], meta := none, calls := [], errors := [.missingKey] }
    ∧ (Report.fetch_air_quality_data env lat lon radius_km pk).calls.filter Call.isDiscovery
      = [Call.discovery { coordinates := (lat, lon), radius := radius_km * 1000, parameters_id := cfg.parameter_id, limit := 100, page := 1 }] := by
  constructor
  · simp [App.fetch_air_quality_data, hcfg, hnokey]
  · cases hd : env.discovery with
    | success body =>
      by_cases hb : body.results = [] <;>
        simp [Report.fetch_air_quality_data, hcfg, hd, hb, List.filter,
          Call.isDiscovery, filter_isDiscovery_take_map]
    | httpError s =>
      simp [Report.fetch_air_quality_data, hcfg, hd, List.filter, Call.isDiscovery]
    | otherError =>
      simp [Report.fetch_air_quality_data, hcfg, hd, List.filter, Call.isDiscovery]

/-- Claim C3 witness: on `envNoKey`, `app.py` makes no call and reports the
missing credential, while the report copy still issues its discovery call. -/
theorem c3_missing_credential_witness :
    get_pollutant_config.lookup "PM2.5 (Fine particulate matter)"
        = some { parameter_id := 2, unit := "µg/m³" }
    ∧ envNoKey.apiKey.getD "" = ""
    ∧ (App.fetch_air_quality_data envNoKey 0 0 1 "PM2.5 (Fine particulate matter)"
        = { df := [], meta := none, calls := [], errors := [.missingKey] }
      ∧ (Report.fetch_air_quality_data envNoKey 0 0 1 "PM2.5 (Fine particulate matter)").calls.filter Call.isDiscovery
        = [Call.discovery { coordinates := (0, 0), radius := 1 * 1000, parameters_id := 2, limit := 100, page := 1 }]) :=
  ⟨rfl, rfl,
    c3_missing_credential envNoKey 0 0 1 "PM2.5 (Fine particulate matter)"
      { parameter_id := 2, unit := "µg/m³" } rfl rfl⟩

/-- The falsy `or` of a value with itself is itself. -/
theorem pyOr_self (a : Option Rat) : pyOr a a = a := by
  cases a with
  | none => rfl
  | some x => by_cases h : x = 0 <;> simp [pyOr, h]

/-- Claim C10: in `app.py`, a reading whose own coordinates object carries a
latitude (resp. longitude) equal to 0.0 has that component treated as absent:
the falsy-or fallback substitutes the corresponding source-candidate
component, because `0.0 or x` evaluates to `x`. -/
theorem c10_zero_component_falls_back (unit : String) (env : Env) (loc : Loc)
    (body : LatestBody) (m : Measurement) (rest : List Measurement) (d : CoordsDict)
    (hlat : env.latest loc.id = .success body)
    (hres : body.results = m :: rest)
    (hm : m.coordinates = some d) :
    (d.latitude = some 0 →
      (App.processLoc unit env loc).map Record.latitude
        = some (loc.coordinates.getD ⟨none, none⟩).latitude)
    ∧ (d.longitude = some 0 →
      (App.processLoc unit env loc).map Record.longitude
        = some (loc.coordinates.getD ⟨none, none⟩).longitude) := by
  constructor <;> intro h0 <;>
    simp [App.processLoc, hlat, hres, hm, h0, pyOr]

/-- A candidate location with coordinates (7, 8). -/
def locB : Loc := { id := some 2, name := some "B", coordinates := some ⟨some 7, some 8⟩ }

/-- A measurement whose own coordinates are (0, 0). -/
def mZeroZero : Measurement :=
  { value := some 9, datetime := none, coordinates := some ⟨some 0, some 0⟩ }

/-- An environment enriching `locB` with the zero-coordinate measurement. -/
def envC10 : Env :=
  { apiKey := some "k",
    discovery := .success { results := [locB], meta := none },
    latest := fun _ => .success { results := [mZeroZero] } }

/-- Claim C10 witness: a reading carrying coordinates (0, 0) over candidate
`locB` at (7, 8) yields the components (7, 8) of the candidate. -/
theorem c10_zero_component_falls_back_witness :
    (App.processLoc "µg/m³" envC10 locB).map Record.latitude = some (some 7)
    ∧ (App.processLoc "µg/m³" envC10 locB).map Record.longitude = some (some 8) :=
  ⟨(c10_zero_component_falls_back "µg/m³" envC10 locB { results := [mZeroZero] }
      mZeroZero [] ⟨some 0, some 0⟩ rfl rfl rfl).1 rfl,
   (c10_zero_component_falls_back "µg/m³" envC10 locB { results := [mZeroZero] }
      mZeroZero [] ⟨some 0, some 0⟩ rfl rfl rfl).2 rfl⟩

/-- Claim C1 counterexample: in `gotham_ai_report.py`, a reading that carries
its own coordinates (3, 4) over candidate `locA` at (1, 2) produces a Reading
whose coordinate is (1, 2) from the candidate, not the own (3, 4) of the
reading — the report copy never reads the coordinates of the measurement. -/
theorem c1_reading_coordinate_ignored_counterexample :
    mGood.coordinates = some ⟨some 3, some 4⟩
    ∧ locA.coordinates = some ⟨some 1, some 2⟩
    ∧ (Report.fetch_air_quality_data envT 0 0 1 "PM2.5 (Fine particulate matter)").df.map
        (fun r => (r.latitude, r.longitude)) = [(some 1, some 2)]
    ∧ ((some 1 : Option Rat), (some 2 : Option Rat)) ≠ ((some 3 : Option Rat), (some 4 : Option Rat)) :=
  ⟨rfl, rfl, rfl, by decide⟩

/-- Claim C1 (amended): coordinate resolution is per component and treats 0.0
like an absent value. In `app.py`, when the enrichment call succeeds and
yields a first result, a component of the own coordinates of the reading is used
exactly when it is present and nonzero; an absent or 0.0 component falls back
to the corresponding candidate component, and when the reading omits its
coordinates object both components come from the candidate. In
`gotham_ai_report.py` the coordinates of the reading are ignored altogether
and the components of the candidate are always used. -/
theorem c1_coordinate_resolution (unit : String) (env : Env) (loc : Loc)
    (body : LatestBody) (m : Measurement) (rest : List Measurement) (r : Record)
    (hlat : env.latest loc.id = .success body)
    (hres : body.results = m :: rest)
    (hr : App.processLoc unit env loc = some r) :
    (∀ d v, m.coordinates = some d → d.latitude = some v → v ≠ 0 → r.latitude = some v)
    ∧ (∀ d, m.coordinates = some d → (d.latitude = none ∨ d.latitude = some 0) →
        r.latitude = (loc.coordinates.getD ⟨none, none⟩).latitude)
    ∧ (∀ d v, m.coordinates = some d → d.longitude = some v → v ≠ 0 → r.longitude = some v)
    ∧ (∀ d, m.coordinates = some d → (d.longitude = none ∨ d.longitude = some 0) →
        r.longitude = (loc.coordinates.getD ⟨none, none⟩).longitude)
    ∧ (m.coordinates = none →
        r.latitude = (loc.coordinates.getD ⟨none, none⟩).latitude
        ∧ r.longitude = (loc.coordinates.getD ⟨none, none⟩).longitude)
    ∧ (∀ r2, Report.processLoc unit env loc = some r2 →
        r2.latitude = (loc.coordinates.getD ⟨none, none⟩).latitude
        ∧ r2.longitude = (loc.coordinates.getD ⟨none, none⟩).longitude) := by
  simp only [App.processLoc, hlat, hres] at hr
  rw [Option.some.injEq] at hr
  subst hr
  refine ⟨?_, ?_, ?_, ?_, ?_, ?_⟩
  · intro d v hd hv hvne
    simp [hd, hv, pyOr, hvne]
  · intro d hd hfalsy
    cases hfalsy with
    | inl h => simp [hd, h, pyOr]
    | inr h => simp [hd, h, pyOr]
  · intro d v hd hv hvne
    simp [hd, hv, pyOr, hvne]
  · intro d hd hfalsy
    cases hfalsy with
    | inl h => simp [hd, h, pyOr]
    | inr h => simp [hd, h, pyOr]
  · intro hnone
    simp [hnone, pyOr_self]
  · intro r2 hr2
    simp only [Report.processLoc, hlat, hres] at hr2
    rw [Option.some.injEq] at hr2
    subst hr2
    exact ⟨rfl, rfl⟩

/-- The record `app.py` builds for candidate `locA` enriched with `mGood`. -/
def recW : Record :=
  { location := "A", value := some 12, unit := "µg/m³", time := some "t0",
    latitude := some 3, longitude := some 4 }

/-- Claim C1 (amended) witness: over candidate `locA` at (1, 2), the reading
`mGood` carrying nonzero coordinates (3, 4) resolves to its own (3, 4) in
`app.py`. -/
theorem c1_coordinate_resolution_witness :
    envT.latest locA.id = .success { results := [mGood] }
    ∧ ({ results := [mGood] } : LatestBody).results = mGood :: []
    ∧ App.processLoc "µg/m³" envT locA = some recW
    ∧ (recW.latitude = some 3 ∧ recW.longitude = some 4) :=
  ⟨rfl, rfl, rfl,
    (c1_coordinate_resolution "µg/m³" envT locA { results := [mGood] } mGood [] recW
        rfl rfl rfl).1 ⟨some 3, some 4⟩ 3 rfl rfl (by decide),
    (c1_coordinate_resolution "µg/m³" envT locA { results := [mGood] } mGood [] recW
        rfl rfl rfl).2.2.1 ⟨some 3, some 4⟩ 4 rfl rfl (by decide)⟩

/-- Over a candidate list whose every element enriches to a record with both
coordinate components present, the coordinate post-filter keeps everything
and the output has one record per candidate. -/
theorem filterMap_all_pass (f : Loc → Option Record) (L : List Loc)
    (h : ∀ x ∈ L, ∃ r, f x = some r ∧ r.latitude.isSome ∧ r.longitude.isSome) :
    (L.filterMap f).filter (fun r => r.latitude.isSome && r.longitude.isSome)
      = L.filterMap f
    ∧ (L.filterMap f).length = L.length := by
  induction L with
  | nil => exact ⟨rfl, rfl⟩
  | cons a t ih =>
    obtain ⟨r, hfa, hlat, hlon⟩ := h a (by simp)
    have iht := ih (fun x hx => h x (by simp [hx]))
    constructor
    · simp [List.filterMap_cons, hfa, List.filter, hlat, hlon, iht.1]
    · simp [List.filterMap_cons, hfa, iht.2]

/-- One failing candidate in the middle of an otherwise-good truncated list
is dropped from the post-filtered output, which then lists exactly the
records of the surviving candidates in order. -/
theorem skip_one_filterMap (f : Loc → Option Record) (C1 C2 : List Loc) (c : Loc)
    (hfail : f c = none)
    (hgood : ∀ x ∈ C1 ++ C2, ∃ r, f x = some r ∧ r.latitude.isSome ∧ r.longitude.isSome) :
    ((C1 ++ c :: C2).filterMap f).filter (fun r => r.latitude.isSome && r.longitude.isSome)
      = (C1 ++ C2).filterMap f
    ∧ ((C1 ++ C2).filterMap f).length = C1.length + C2.length := by
  have hsplit : (C1 ++ c :: C2).filterMap f = (C1 ++ C2).filterMap f := by
    simp [List.filterMap_append, List.filterMap_cons, hfail]
  rw [hsplit]
  have hall := filterMap_all_pass f (C1 ++ C2) hgood
  refine ⟨hall.1, ?_⟩
  rw [hall.2, List.length_append]

/-- The data-frame `app.py` returns when discovery succeeds with a non-empty
candidate list: per-candidate enrichment over the first 50 candidates,
post-filtered to rows whose latitude and longitude are both present. -/
theorem app_df_success (env : Env) (lat lon : Rat) (radius_km : Int)
    (pk : String) (cfg : PollutantInfo) (body : LocationsBody)
    (hcfg : get_pollutant_config.lookup pk = some cfg)
    (hkey : env.apiKey.getD "" ≠ "")
    (hd : env.discovery = .success body)
    (hb : body.results ≠ []) :
    (App.fetch_air_quality_data env lat lon radius_km pk).df
      = ((body.results.take 50).filterMap (App.processLoc cfg.unit env)).filter
          (fun r => r.latitude.isSome && r.longitude.isSome) := by
  simp [App.fetch_air_quality_data, hcfg, hkey, hd, hb, take_min50]

/-- The data-frame `gotham_ai_report.py` returns when discovery succeeds. -/
theorem report_df_success (env : Env) (lat lon : Rat) (radius_km : Int)
    (pk : String) (cfg : PollutantInfo) (body : LocationsBody)
    (hcfg : get_pollutant_config.lookup pk = some cfg)
    (hd : env.discovery = .success body) :
    (Report.fetch_air_quality_data env lat lon radius_km pk).df
      = ((body.results.take 50).filterMap (Report.processLoc cfg.unit env)).filter
          (fun r => r.latitude.isSome && r.longitude.isSome) := by
  simp [Report.fetch_air_quality_data, hcfg, hd]

/-- Claim C6: per-candidate enrichment errors are isolated and skipped: with
the truncated candidate list split as C1 ++ c :: C2, if the enrichment of
candidate c fails (exception, or a body with absent/empty results) while every
other candidate enriches to a coordinate-bearing record, both copies return
exactly the records of the surviving candidates, in discovery order — K−1 readings
from K candidates — and never abort the stage. -/
theorem c6_per_candidate_failure_skipped (env : Env) (lat lon : Rat) (radius_km : Int)
    (pk : String) (cfg : PollutantInfo) (body : LocationsBody)
    (C1 C2 : List Loc) (c : Loc)
    (hcfg : get_pollutant_config.lookup pk = some cfg)
    (hkey : env.apiKey.getD "" ≠ "")
    (hd : env.discovery = .success body)
    (htr : body.results.take 50 = C1 ++ c :: C2)
    (hfailA : App.processLoc cfg.unit env c = none)
    (hgoodA : ∀ x ∈ C1 ++ C2, ∃ r, App.processLoc cfg.unit env x = some r
        ∧ r.latitude.isSome ∧ r.longitude.isSome)
    (hfailR : Report.processLoc cfg.unit env c = none)
    (hgoodR : ∀ x ∈ C1 ++ C2, ∃ r, Report.processLoc cfg.unit env x = some r
        ∧ r.latitude.isSome ∧ r.longitude.isSome) :
    (App.fetch_air_quality_data env lat lon radius_km pk).df
        = (C1 ++ C2).filterMap (App.processLoc cfg.unit env)
    ∧ (App.fetch_air_quality_data env lat lon radius_km pk).df.length
        = C1.length + C2.length
    ∧ (Report.fetch_air_quality_data env lat lon radius_km pk).df
        = (C1 ++ C2).filterMap (Report.processLoc cfg.unit env)
    ∧ (Report.fetch_air_quality_data env lat lon radius_km pk).df.length
        = C1.length + C2.length := by
  have hb : body.results ≠ [] := by
    intro h
    rw [h] at htr
    simp at htr
  have eA := app_df_success env lat lon radius_km pk cfg body hcfg hkey hd hb
  have eR := report_df_success env lat lon radius_km pk cfg body hcfg hd
  rw [htr] at eA eR
  have hA := skip_one_filterMap (App.processLoc cfg.unit env) C1 C2 c hfailA hgoodA
  have hR := skip_one_filterMap (Report.processLoc cfg.unit env) C1 C2 c hfailR hgoodR
  refine ⟨?_, ?_, ?_, ?_⟩
  · rw [eA, hA.1]
  · rw [eA, hA.1, hA.2]
  · rw [eR, hR.1]
  · rw [eR, hR.1, hR.2]

/-- Discovery candidate 101 at (11, 12). -/
def loc101 : Loc := { id := some 101, name := some "S1", coordinates := some ⟨some 11, some 12⟩ }

/-- Discovery candidate 102 at (21, 22), whose enrichment will fail. -/
def loc102 : Loc := { id := some 102, name := some "S2", coordinates := some ⟨some 21, some 22⟩ }

/-- Discovery candidate 103 at (31, 32). -/
def loc103 : Loc := { id := some 103, name := some "S3", coordinates := some ⟨some 31, some 32⟩ }

/-- An environment discovering candidates 101, 102, 103 where the enrichment
call for location 102 times out and the others succeed with `mGood`. -/
def envC6 : Env :=
  { apiKey := some "k",
    discovery := .success { results := [loc101, loc102, loc103], meta := none },
    latest := fun i => if i = some 102 then .failure else .success { results := [mGood] } }

/-- Claim C6 witness: of three candidates with the middle enrichment failing,
both copies return exactly two readings in discovery order. -/
theorem c6_per_candidate_failure_skipped_witness : 
    App.processLoc "µg/m³" envC6 loc102 = none
    ∧ Report.processLoc "µg/m³" envC6 loc102 = none
    ∧ (App.fetch_air_quality_data envC6 0 0 1 "PM2.5 (Fine particulate matter)").df.length = 1 + 1
    ∧ (Report.fetch_air_quality_data envC6 0 0 1 "PM2.5 (Fine particulate matter)").df.length = 1 + 1 := by
  have hgA : ∀ x ∈ [loc101] ++ [loc103], ∃ r, App.processLoc "µg/m³" envC6 x = some r
      ∧ r.latitude.isSome ∧ r.longitude.isSome := by
    intro x hx
    simp only [List.mem_append, List.mem_singleton] at hx
    rcases hx with h | h <;> subst h <;> exact ⟨_, rfl, rfl, rfl⟩
  have hgR : ∀ x ∈ [loc101] ++ [loc103], ∃ r, Report.processLoc "µg/m³" envC6 x = some r
      ∧ r.latitude.isSome ∧ r.longitude.isSome := by
    intro x hx
    simp only [List.mem_append, List.mem_singleton] at hx
    rcases hx with h | h <;> subst h <;> exact ⟨_, rfl, rfl, rfl⟩
  have main := c6_per_candidate_failure_skipped envC6 0 0 1 "PM2.5 (Fine particulate matter)"
    { parameter_id := 2, unit := "µg/m³" } { results := [loc101, loc102, loc103], meta := none }
    [loc101] [loc103] loc102 rfl (by decide) rfl rfl (by decide) hgA (by decide) hgR
  exact ⟨by decide, by decide, main.2.1, main.2.2.2⟩

/-- A measurement whose own coordinates are (0, 5): a genuine coordinate on
the equator. -/
def mZeroFive : Measurement :=
  { value := some 9, datetime := none, coordinates := some ⟨some 0, some 5⟩ }

/-- A discovery candidate that carries no coordinates object. -/
def locNoCoords : Loc := { id := some 9, name := some "N", coordinates := none }

/-- An environment enriching the coordinate-less candidate with the
(0, 5)-coordinate reading. -/
def envC7 : Env :=
  { apiKey := some "k",
    discovery := .success { results := [locNoCoords], meta := none },
    latest := fun _ => .success { results := [mZeroFive] } }

/-- Claim C7 counterexample: a Reading carrying its own coordinate (0, 5)
over a candidate with no coordinate is excluded from the returned ResultSet
in `app.py` — `0.0 or None` resolves the latitude to null and the row is
dropped — so "a Reading with a coordinate on either itself or its source
candidate is retained" is false. -/
theorem c7_zero_own_coordinate_excluded_counterexample :
    mZeroFive.coordinates = some ⟨some 0, some 5⟩
    ∧ locNoCoords.coordinates = none
    ∧ (App.fetch_air_quality_data envC7 0 0 1 "PM2.5 (Fine particulate matter)").df = [] :=
  ⟨rfl, rfl, by decide⟩

/-- Claim C7 (amended): every Reading in a returned ResultSet has a
resolvable (non-null) latitude and longitude, in both copies; a reading is
retained exactly when each component resolved by the falsy-or fallback is
non-null — in particular, a reading whose own component is 0.0 while the
candidate lacks that component is excluded, so carrying a coordinate on the
reading itself does not by itself guarantee retention. -/
theorem c7_resultset_coordinate_invariant (env : Env) (lat lon : Rat)
    (radius_km : Int) (pk : String) :
    (∀ r ∈ (App.fetch_air_quality_data env lat lon radius_km pk).df,
        r.latitude.isSome ∧ r.longitude.isSome)
    ∧ (∀ r ∈ (Report.fetch_air_quality_data env lat lon radius_km pk).df,
        r.latitude.isSome ∧ r.longitude.isSome)
    ∧ (∀ cfg body x r, get_pollutant_config.lookup pk = some cfg →
        env.apiKey.getD "" ≠ "" → env.discovery = .success body →
        x ∈ body.results.take 50 → App.processLoc cfg.unit env x = some r →
        r.latitude.isSome → r.longitude.isSome →
        r ∈ (App.fetch_air_quality_data env lat lon radius_km pk).df) := by
  refine ⟨?_, ?_, ?_⟩
  · intro r hr
    cases hcfg : get_pollutant_config.lookup pk with
    | none => simp [App.fetch_air_quality_data, hcfg] at hr
    | some cfg =>
      by_cases hkey : env.apiKey.getD "" = ""
      · simp [App.fetch_air_quality_data, hcfg, hkey] at hr
      · cases hd : env.discovery with
        | httpError s => simp [App.fetch_air_quality_data, hcfg, hkey, hd] at hr
        | otherError => simp [App.fetch_air_quality_data, hcfg, hkey, hd] at hr
        | success body =>
          by_cases hb : body.results = []
          · simp [App.fetch_air_quality_data, hcfg, hkey, hd, hb] at hr
          · rw [app_df_success env lat lon radius_km pk cfg body hcfg hkey hd hb] at hr
            have h2 := (List.mem_filter.mp hr).2
            simp only [Bool.and_eq_true] at h2
            exact h2
  · intro r hr
    cases hcfg : get_pollutant_config.lookup pk with
    | none => simp [Report.fetch_air_quality_data, hcfg] at hr
    | some cfg =>
      cases hd : env.discovery with
      | httpError s => simp [Report.fetch_air_quality_data, hcfg, hd] at hr
      | otherError => simp [Report.fetch_air_quality_data, hcfg, hd] at hr
      | success body =>
        rw [report_df_success env lat lon radius_km pk cfg body hcfg hd] at hr
        have h2 := (List.mem_filter.mp hr).2
        simp only [Bool.and_eq_true] at h2
        exact h2
  · intro cfg body x r hcfg hkey hd hx hr hlat hlon
    have hb : body.results ≠ [] := by
      intro h
      rw [h] at hx
      simp at hx
    rw [app_df_success env lat lon radius_km pk cfg body hcfg hkey hd hb]
    exact List.mem_filter.mpr
      ⟨List.mem_filterMap.mpr ⟨x, hx, hr⟩, by simp [hlat, hlon]⟩

/-- Claim C7 (amended) witness: the retained record `recW` over `envT` has
both components present. -/
theorem c7_resultset_coordinate_invariant_witness :
    recW ∈ (App.fetch_air_quality_data envT 0 0 1 "PM2.5 (Fine particulate matter)").df
    ∧ (recW.latitude.isSome ∧ recW.longitude.isSome) :=
  ⟨by decide,
    (c7_resultset_coordinate_invariant envT 0 0 1 "PM2.5 (Fine particulate matter)").1
      recW (by decide)⟩
